import Mathlib

/-!
Shallow embedding of `src/scraper.py` (IMDb movie scraper) and proofs about
the claims of its specification.

Strings are modelled as `List Char` (`Str`).  Python's `s.split('. ', 1)[-1]`
and `s.strip()` are modelled by `pySplitLast` and `pyStrip` below.  The
external browser environment (whether the session is alive, what text each
CSS lookup returns, whether waits time out, whether clicks succeed) is
modelled by explicit environment records; each Python function becomes a pure
Lean function of its environment.
-/

abbrev Str := List Char

/-- Python `s.strip()`: drop whitespace from both ends. -/
def pyStrip (s : Str) : Str :=
  ((s.dropWhile Char.isWhitespace).reverse.dropWhile Char.isWhitespace).reverse

/-- The text after the first occurrence of `sep` in `s`, if `sep` occurs. -/
def findAfter (sep : Str) : Str → Option Str
  | [] => none
  | c :: rest =>
    if sep.isPrefixOf (c :: rest) then some ((c :: rest).drop sep.length)
    else findAfter sep rest

/-- Python `s.split(sep, 1)[-1]` (for non-empty `sep`): the text after the
first occurrence of `sep`, or `s` itself when `sep` does not occur. -/
def pySplitLast (sep s : Str) : Str := (findAfter sep s).getD s

/-- The separator `'. '` used by the title cleanup in `extract_movie_data`. -/
def dotSpace : Str := ['.', ' ']

/-- The storyline placeholder `"No description available"`. -/
def noDesc : Str := "No description available".data

/-! ## Session Guardian: `check_session` / `recover_session`

`check_session(driver)` probes the session and returns a `Bool` (its own
`try/except` turns any exception into `False`); we carry its result as the
field `sessionAlive` of the extraction environment.

`recover_session(driver, url)` (lines 69-84): Tier 1 refreshes the page and
waits for the listing marker; on any exception Tier 2 quits the handle,
builds a brand-new session with `setup_driver()` and navigates to `url`.
Crucially, `driver = setup_driver()` rebinds only the Python *local* name
`driver`; the function returns a plain `Bool`, so the caller's own `driver`
binding is unchanged by the call. -/

structure RecoverEnv where
  /-- Tier 1 (`driver.refresh()` + wait for the listing marker) succeeds. -/
  refreshOk : Bool
  /-- Tier 2 (`driver.quit(); driver = setup_driver(); driver.get(url)`) succeeds. -/
  hardOk : Bool
deriving DecidableEq

/-- The value `recover_session` returns to its caller. -/
def recover_session (e : RecoverEnv) : Bool :=
  if e.refreshOk then true
  else if e.hardOk then true
  else false

/-- Result of `recover_session` with the handle bindings made explicit:
`callerHandle` is what the caller's `driver` variable refers to after the
call (Python argument passing: rebinding the callee's local never changes
it), `localHandle` is what the function's local `driver` name referred to
when it returned. -/
structure RecResult where
  ok : Bool
  callerHandle : Nat
  localHandle : Nat
deriving DecidableEq

/-- `recover_session` with handle tracking: `h` is the handle passed in,
`fresh` the id of the session `setup_driver()` would create in Tier 2. -/
def recover_session_traced (h fresh : Nat) (e : RecoverEnv) : RecResult :=
  if e.refreshOk then ⟨true, h, h⟩
  else if e.hardOk then ⟨true, h, fresh⟩
  else ⟨false, h, h⟩

/-! ## Record Extractor: `extract_movie_data` (lines 86-114) -/

/-- Exception classes distinguished by the model: the
`InvalidSessionIdException` raised at line 91, and every other `Exception`
(e.g. `NoSuchElementException` from a failed title lookup). -/
inductive PyExn
  | invalidSession
  | other
deriving DecidableEq

/-- Environment of one `extract_movie_data` call: the state of the browser
and what each CSS lookup on `container` would yield (`none` = the lookup
raises; `some s` = it returns an element whose `.text` is `s`). -/
structure ExtractEnv where
  /-- Result of `check_session(driver)`. -/
  sessionAlive : Bool
  /-- Environment for the `recover_session` call made when the session is dead. -/
  recEnv : RecoverEnv
  /-- `.ipc-title__text` lookup. -/
  titleText : Option Str
  /-- `.ipc-html-content-inner-div` lookup. -/
  story1 : Option Str
  /-- `.ipc-html-content--base` lookup. -/
  story2 : Option Str
  /-- `.sc-466bb6c-0` lookup. -/
  story3 : Option Str
deriving DecidableEq

/-- One storyline fallback step: `container.find_element(...).text.strip()`
if the lookup succeeds and the trimmed text is non-empty (Python truthiness). -/
def tryStory : Option Str → Option Str
  | none => none
  | some s => if pyStrip s = [] then none else some (pyStrip s)

/-- The storyline produced by the fallback loop of lines 98-108: first
non-empty trimmed text among the three selectors, else the placeholder. -/
def storylineOf (e : ExtractEnv) : Str :=
  match tryStory e.story1 with
  | some s => s
  | none =>
    match tryStory e.story2 with
    | some s => s
    | none =>
      match tryStory e.story3 with
      | some s => s
      | none => noDesc

/-- The title cleanup of line 95: `title.split('. ', 1)[-1].strip()`. -/
def titleClean (raw : Str) : Str := pyStrip (pySplitLast dotSpace raw)

/-- The body of the `try:` block of `extract_movie_data` (lines 88-110),
before the `except Exception` handler: it either returns the
`(title, storyline)` pair or raises. -/
def extract_body (e : ExtractEnv) : Except PyExn (Option Str × Option Str) :=
  if e.sessionAlive then
    match e.titleText with
    | none => .error .other
    | some raw => .ok (some (titleClean raw), some (storylineOf e))
  else if recover_session e.recEnv then
    match e.titleText with
    | none => .error .other
    | some raw => .ok (some (titleClean raw), some (storylineOf e))
  else
    .error .invalidSession

/-- `extract_movie_data` (lines 86-114): the whole body is wrapped in
`try: ... except Exception: return None, None`, and
`InvalidSessionIdException` *is* an `Exception`, so every error of the body
— the line-91 raise included — becomes the failure pair `(None, None)`. -/
def extract_movie_data (e : ExtractEnv) : Option Str × Option Str :=
  match extract_body e with
  | .ok r => r
  | .error _ => (none, none)

/-! ## Page Collector: `scrape_page` (lines 127-139)

The whole body (wait for at least one listing item, human-like scroll,
`find_elements`) sits in a `try:` whose `except Exception` returns `[]`;
a wait timeout (`TimeoutException`) is an `Exception`, so it yields `[]`
rather than propagating. -/

structure PageEnv where
  /-- No exception occurs in the body (in particular the 25s presence wait
  does not time out). -/
  ok : Bool
  /-- The item containers `find_elements` returns when the body succeeds,
  each carrying the environment of its later `extract_movie_data` call. -/
  containers : List ExtractEnv
deriving DecidableEq

def scrape_page (p : PageEnv) : List ExtractEnv :=
  if p.ok then p.containers else []

/-! ## Checkpoint store: `save_progress` (lines 116-125) -/

/-- Configured target count (line 18). -/
def MAX_MOVIES : Nat := 4000

/-- Maximum number of outer attempts (line 22). -/
def MAX_RETRIES : Nat := 3

/-- A record as stored in `all_movies`: `[title, storyline]`. -/
abbrev Movie := Str × Str

/-- The rows `save_progress` writes: the header `["Title", "Storyline"]`
followed by one row per record. -/
def csvOf (movies : List Movie) : List (List Str) :=
  ["Title".data, "Storyline".data] :: movies.map (fun m => [m.1, m.2])

/-- The body of `save_progress`'s `try:` block — writes the CSV, or
raises (modelled by the `ok` flag covering any I/O fault). -/
def save_body (ok : Bool) (movies : List Movie) : Except Unit (List (List Str)) :=
  if ok then .ok (csvOf movies) else .error ()

/-- `save_progress(movies, filename)`: any exception of the body is caught
by its `except Exception` handler and only logged, so the call always
returns normally; on failure the file keeps its previous contents. -/
def save_progress (ok : Bool) (movies : List Movie) (file : List (List Str)) :
    List (List Str) :=
  match save_body ok movies with
  | .ok f => f
  | .error _ => file

/-! ## Collection Loop: the inner `while` of `main` (lines 153-189) -/

/-- The environment one iteration of the inner loop draws on: the page
collection, whether a checkpoint write this cycle would succeed, and
whether the pagination block (wait for the load-more button, `safe_click`,
settle sleep) succeeds — its bare `except:` turns any fault into `break`. -/
structure CycleInput where
  pageEnv : PageEnv
  saveOk : Bool
  pagOk : Bool
deriving DecidableEq

/-- State threaded through the inner loop: the accumulator, the CSV file
contents, and the snapshots at which `save_progress` was invoked. -/
structure IState where
  all_movies : List Movie
  file : List (List Str)
  saves : List (List Movie)
deriving DecidableEq

/-- Lines 160-164: build `new_movies` from the containers.  A container
contributes iff extraction returns a truthy (non-`None`, non-empty) title
that is not among the titles of `all_movies` — note the membership test is
against `all_movies` only, which is not modified until after the whole
batch is processed. -/
def processContainers (all_movies : List Movie) (page : List ExtractEnv) :
    List Movie :=
  page.filterMap (fun e =>
    match extract_movie_data e with
    | (some t, some s) =>
      if t ≠ [] ∧ t ∉ all_movies.map Prod.fst then some (t, s) else none
    | _ => none)

/-- Lines 160-174: process one batch.  If `new_movies` is non-empty the
accumulator is extended and, when the new length is an exact multiple of
250, a checkpoint is attempted. -/
def runCycle (st : IState) (saveOk : Bool) (page : List ExtractEnv) : IState :=
  if processContainers st.all_movies page = [] then st
  else if (st.all_movies ++ processContainers st.all_movies page).length % 250 = 0 then
    ⟨st.all_movies ++ processContainers st.all_movies page,
     save_progress saveOk (st.all_movies ++ processContainers st.all_movies page) st.file,
     st.saves ++ [st.all_movies ++ processContainers st.all_movies page]⟩
  else
    ⟨st.all_movies ++ processContainers st.all_movies page, st.file, st.saves⟩

/-- Lines 153-189: the inner `while len(all_movies) < MAX_MOVIES` loop.
It stops when the collection comes back empty, when the target is reached,
or when pagination fails; a run's successive cycle environments are given
as a list (an exhausted list simply ends the modelled run). -/
def innerLoop (st : IState) : List CycleInput → IState
  | [] => st
  | c :: rest =>
    if st.all_movies.length < MAX_MOVIES then
      if scrape_page c.pageEnv = [] then st
      else
        if MAX_MOVIES ≤ (runCycle st c.saveOk (scrape_page c.pageEnv)).all_movies.length then
          runCycle st c.saveOk (scrape_page c.pageEnv)
        else if c.pagOk then innerLoop (runCycle st c.saveOk (scrape_page c.pageEnv)) rest
        else runCycle st c.saveOk (scrape_page c.pageEnv)
    else st

/-! ## Outer retry envelope of `main` (lines 141-207) -/

/-- How the attempt preamble `driver = setup_driver(); driver.get(BASE_URL)`
plays out.  Inside the inner loop no statement can raise past its local
handler (`scrape_page`, `extract_movie_data`, `save_progress` each swallow
all exceptions; the pagination block has a bare `except: break`), so the
outer `except` clauses can only be entered from this preamble. -/
inductive SetupOutcome
  | ok
  /-- `setup_driver()` succeeds, then `driver.get` raises a session-fatal
  exception (`InvalidSessionIdException` / `WebDriverException`). -/
  | fatalInGet
  /-- `setup_driver()` itself raises a session-fatal exception; `driver`
  keeps its previous binding. -/
  | fatalInSetup
  /-- An exception matching neither session-fatal class: line 200's
  `except Exception` prints and breaks. -/
  | critical
deriving DecidableEq

structure AttemptScript where
  setup : SetupOutcome
  cycles : List CycleInput
deriving DecidableEq

/-- Externally observable events of a run. -/
inductive Ev
  /-- `save_progress` invoked with this snapshot of the accumulator. -/
  | save (snapshot : List Movie)
  /-- `setup_driver()` created session `h`. -/
  | newSession (h : Nat)
  /-- `driver.quit()` on session `h`. -/
  | quit (h : Nat)
  /-- `time.sleep(RETRY_DELAY)` between attempts. -/
  | backoff
deriving DecidableEq

/-- State of `main`: attempt counter, accumulator, CSV file, the current
binding of the `driver` variable (session ids are drawn from the counter
`nextH`, so every `setup_driver()` call yields a previously unused id),
and the event trace. -/
structure MState where
  attempt : Nat
  all_movies : List Movie
  file : List (List Str)
  driver : Option Nat
  nextH : Nat
  trace : List Ev
deriving DecidableEq

/-- The outer `while attempt < MAX_RETRIES` loop of `main` (lines 146-202).
On a successful attempt the inner loop runs and then line 192's `break`
leaves the loop; on a session-fatal fault the counter advances, the handle
is quit, the backoff sleep runs, and the loop re-enters; any other
exception breaks out immediately. -/
def outerLoop (st : MState) : List AttemptScript → MState
  | [] => st
  | a :: rest =>
    if st.attempt < MAX_RETRIES then
      match a.setup with
      | .ok =>
        let h := st.nextH
        let ist := innerLoop ⟨st.all_movies, st.file, []⟩ a.cycles
        { st with
          all_movies := ist.all_movies, file := ist.file,
          driver := some h, nextH := h + 1,
          trace := st.trace ++ Ev.newSession h :: ist.saves.map Ev.save }
      | .fatalInGet =>
        let h := st.nextH
        outerLoop
          { st with
            attempt := st.attempt + 1, driver := some h, nextH := h + 1,
            trace := st.trace ++ [Ev.newSession h, Ev.quit h, Ev.backoff] }
          rest
      | .fatalInSetup =>
        outerLoop
          { st with
            attempt := st.attempt + 1,
            trace := st.trace ++
              (match st.driver with
               | some h => [Ev.quit h, Ev.backoff]
               | none => [Ev.backoff]) }
          rest
      | .critical => st
    else st

/-- Lines 141-207 end to end: run the outer loop from the initial state,
then perform the unconditional final `save_progress` (line 205) and the
final `if driver: driver.quit()` (line 206). -/
def mainRun (script : List AttemptScript) (finalSaveOk : Bool) : MState :=
  let st := outerLoop ⟨0, [], [], none, 0, []⟩ script
  { st with
    file := save_progress finalSaveOk st.all_movies st.file,
    trace := st.trace ++ Ev.save st.all_movies ::
      (match st.driver with
       | some h => [Ev.quit h]
       | none => []) }

/-! ## The successful-title view used by the amended dedup statement -/

/-- The titles the extractor reports for the containers of one page, in
order (containers whose extraction fails contribute nothing). -/
def pageTitles (page : List ExtractEnv) : List Str :=
  page.filterMap (fun e => (extract_movie_data e).1)

/-! ## Concrete sample inputs used by the witnesses and counterexamples -/

/-- A healthy container whose title text is `"A"` and whose storyline
lookups all fail. -/
def envA : ExtractEnv := ⟨true, ⟨true, true⟩, some "A".data, none, none, none⟩

/-- The record `extract_movie_data envA` produces. -/
def movA : Movie := ("A".data, noDesc)

/-- A container whose title carries the enumerated rank style. -/
def envDuneRanked : ExtractEnv :=
  ⟨true, ⟨true, true⟩, some "1. Dune: Part Two".data, none, none, none⟩

/-- A container with the same title, without the rank. -/
def envDunePlain : ExtractEnv :=
  ⟨true, ⟨true, true⟩, some "Dune: Part Two".data, none, none, none⟩

def duneTitle : Str := "Dune: Part Two".data

/-- One collection cycle yielding both Dune containers, then pagination
exhaustion. -/
def duneCycle : CycleInput := ⟨⟨true, [envDuneRanked, envDunePlain]⟩, true, false⟩

/-- One collection cycle with `n` copies of `envA`, then pagination
exhaustion. -/
def cA (n : Nat) : CycleInput := ⟨⟨true, List.replicate n envA⟩, true, false⟩

/-- The loop state at the start of a run. -/
def i0 : IState := ⟨[], [], []⟩

/-- A container met with a dead session that resists both recovery tiers. -/
def deadEnv : ExtractEnv := ⟨false, ⟨false, false⟩, some "X".data, none, none, none⟩

/-- A container whose title contains `". "` in its body with no enumerated
rank. -/
def envMrSmith : ExtractEnv :=
  ⟨true, ⟨true, true⟩, some "Mr. Smith Goes to Washington".data, none, none, none⟩

/-- A collection cycle whose presence wait times out. -/
def cTimeout : CycleInput := ⟨⟨false, [envA]⟩, true, true⟩

/-! ## Helper lemmas -/

lemma tryStory_ne_nil {o : Option Str} {s : Str} (h : tryStory o = some s) :
    s ≠ [] := by
  cases o with
  | none => exact absurd h (by simp [tryStory])
  | some t =>
    unfold tryStory at h
    by_cases hp : pyStrip t = []
    · simp [hp] at h
    · simp [hp] at h
      exact h ▸ hp

lemma storylineOf_ne_nil (e : ExtractEnv) : storylineOf e ≠ [] := by
  unfold storylineOf
  cases h1 : tryStory e.story1 with
  | some s => exact tryStory_ne_nil h1
  | none =>
    cases h2 : tryStory e.story2 with
    | some s => exact tryStory_ne_nil h2
    | none =>
      cases h3 : tryStory e.story3 with
      | some s => exact tryStory_ne_nil h3
      | none => decide

/-- `extract_movie_data` yields the failure pair or a cleaned title paired
with the fallback storyline. -/
lemma extract_eq_cases (e : ExtractEnv) :
    extract_movie_data e = (none, none) ∨
    ∃ raw, e.titleText = some raw ∧
      extract_movie_data e = (some (titleClean raw), some (storylineOf e)) := by
  cases ht : e.titleText with
  | none =>
    left
    by_cases hs : e.sessionAlive = true <;>
      by_cases hr : recover_session e.recEnv = true <;>
        simp [extract_movie_data, extract_body, hs, hr, ht]
  | some raw =>
    by_cases hs : e.sessionAlive = true
    · exact Or.inr ⟨raw, rfl, by simp [extract_movie_data, extract_body, hs, ht]⟩
    · by_cases hr : recover_session e.recEnv = true
      · exact Or.inr ⟨raw, rfl, by simp [extract_movie_data, extract_body, hs, hr, ht]⟩
      · left
        simp [extract_movie_data, extract_body, hs, hr]

lemma extract_fst_some {e : ExtractEnv} {t : Str}
    (h : (extract_movie_data e).1 = some t) :
    extract_movie_data e = (some t, some (storylineOf e)) := by
  rcases extract_eq_cases e with h0 | ⟨raw, _, h0⟩
  · rw [h0] at h
    exact absurd h (by simp)
  · rw [h0] at h ⊢
    simp only [Prod.fst] at h
    rw [Option.some.injEq] at h
    rw [h]

/-- Whatever one cycle keeps has a truthy title not yet in the accumulator
the cycle started from. -/
lemma mem_processContainers {acc : List Movie} {page : List ExtractEnv} {r : Movie}
    (h : r ∈ processContainers acc page) :
    r.1 ≠ [] ∧ r.1 ∉ acc.map Prod.fst := by
  unfold processContainers at h
  rw [List.mem_filterMap] at h
  rcases h with ⟨e, _, he⟩
  rcases extract_eq_cases e with h0 | ⟨raw, _, h0⟩
  · rw [h0] at he
    simp at he
  · rw [h0] at he
    dsimp only at he
    by_cases hc : titleClean raw ≠ [] ∧ titleClean raw ∉ acc.map Prod.fst
    · rw [if_pos hc] at he
      rw [Option.some.injEq] at he
      rw [← he]
      exact hc
    · rw [if_neg hc] at he
      exact Option.noConfusion he

/-- The titles one cycle keeps form a sublist of the titles the extractor
reported for that page. -/
lemma map_fst_processContainers_sublist (acc : List Movie) (page : List ExtractEnv) :
    List.Sublist ((processContainers acc page).map Prod.fst) (pageTitles page) := by
  induction page with
  | nil => simp [processContainers, pageTitles]
  | cons e rest ih =>
    simp only [processContainers, pageTitles, List.filterMap_cons] at ih ⊢
    rcases extract_eq_cases e with h0 | ⟨raw, _, h0⟩
    · rw [h0]
      exact ih
    · rw [h0]
      dsimp only
      by_cases hc : titleClean raw ≠ [] ∧ titleClean raw ∉ acc.map Prod.fst
      · rw [if_pos hc]
        exact ih.cons₂ _
      · rw [if_neg hc]
        exact ih.cons _

/-- One cycle preserves distinctness of the accumulator's titles, provided
the titles extracted from the page are themselves distinct. -/
lemma nodup_runCycle {st : IState} {page : List ExtractEnv} (ok : Bool)
    (hst : (st.all_movies.map Prod.fst).Nodup)
    (hp : (pageTitles page).Nodup) :
    ((runCycle st ok page).all_movies.map Prod.fst).Nodup := by
  unfold runCycle
  by_cases hne : processContainers st.all_movies page = []
  · simp [hne, hst]
  · have hnew : ((processContainers st.all_movies page).map Prod.fst).Nodup :=
      hp.sublist (map_fst_processContainers_sublist st.all_movies page)
    have hdisj : (st.all_movies.map Prod.fst).Disjoint
        ((processContainers st.all_movies page).map Prod.fst) := by
      intro t ht1 ht2
      rw [List.mem_map] at ht2
      rcases ht2 with ⟨r, hr, hrt⟩
      exact (mem_processContainers hr).2 (by rwa [hrt])
    have hall : ((st.all_movies ++ processContainers st.all_movies page).map
        Prod.fst).Nodup := by
      rw [List.map_append, List.nodup_append]
      exact ⟨hst, hnew, hdisj⟩
    rw [if_neg hne]
    by_cases hm : (st.all_movies ++ processContainers st.all_movies page).length % 250 = 0
    · rw [if_pos hm]
      exact hall
    · rw [if_neg hm]
      exact hall

lemma length_processContainers_le (acc : List Movie) (page : List ExtractEnv) :
    (processContainers acc page).length ≤ page.length :=
  List.length_filterMap_le _ _

/-- One cycle grows the accumulator by at most the size of the page batch. -/
lemma length_runCycle_le (st : IState) (ok : Bool) (page : List ExtractEnv) :
    (runCycle st ok page).all_movies.length ≤ st.all_movies.length + page.length := by
  unfold runCycle
  by_cases hne : processContainers st.all_movies page = []
  · rw [if_pos hne]
    exact Nat.le_add_right _ _
  · have hpc := length_processContainers_le st.all_movies page
    rw [if_neg hne]
    by_cases hm : (st.all_movies ++ processContainers st.all_movies page).length % 250 = 0
    · rw [if_pos hm]
      dsimp only
      rw [List.length_append]
      omega
    · rw [if_neg hm]
      dsimp only
      rw [List.length_append]
      omega

lemma extract_envA : extract_movie_data envA = (some "A".data, some noDesc) := by decide

/-- A page of `n` identical healthy containers, against an empty
accumulator, yields `n` copies of the same record: the in-cycle filter
compares only against the (still-empty) accumulator. -/
lemma processContainers_nil_replicate (n : Nat) :
    processContainers [] (List.replicate n envA) = List.replicate n movA := by
  induction n with
  | zero => rfl
  | succ m ih =>
    rw [List.replicate_succ, List.replicate_succ]
    unfold processContainers at ih ⊢
    rw [List.filterMap_cons, extract_envA]
    dsimp only
    rw [if_pos (by decide)]
    rw [ih]
    rfl

/-- For `n ≥ 1` the single-cycle script `cA n` runs exactly one batch. -/
lemma innerLoop_cA (n : Nat) (hn : n ≠ 0) :
    innerLoop i0 [cA n] = runCycle i0 true (List.replicate n envA) := by
  rw [innerLoop]
  have hpage : scrape_page (cA n).pageEnv = List.replicate n envA := rfl
  rw [hpage]
  rw [if_pos (by decide : (i0.all_movies.length < MAX_MOVIES))]
  rw [if_neg (by
    cases n with
    | zero => exact absurd rfl hn
    | succ m => simp [List.replicate_succ])]
  have hsave : (cA n).saveOk = true := rfl
  rw [hsave]
  by_cases hmax : MAX_MOVIES ≤ (runCycle i0 true (List.replicate n envA)).all_movies.length
  · rw [if_pos hmax]
  · rw [if_neg hmax]
    have hpag : (cA n).pagOk = false := rfl
    rw [hpag]
    rfl

/-- The single batch of `cA n` puts `n` copies of `movA` in the
accumulator and checkpoints only when `n` is an exact multiple of 250. -/
lemma runCycle_cA (n : Nat) (hn : n ≠ 0) :
    (runCycle i0 true (List.replicate n envA)).all_movies = List.replicate n movA ∧
    (runCycle i0 true (List.replicate n envA)).saves =
      if n % 250 = 0 then [List.replicate n movA] else [] := by
  have hpc : processContainers i0.all_movies (List.replicate n envA) =
      List.replicate n movA := processContainers_nil_replicate n
  have hne : processContainers i0.all_movies (List.replicate n envA) ≠ [] := by
    rw [hpc]
    cases n with
    | zero => exact absurd rfl hn
    | succ m => simp [List.replicate_succ]
  unfold runCycle
  rw [if_neg hne, hpc]
  have happ : i0.all_movies ++ List.replicate n movA = List.replicate n movA :=
    List.nil_append _
  rw [happ]
  by_cases hm : n % 250 = 0
  · rw [if_pos (by rwa [List.length_replicate])]
    rw [if_pos hm]
    exact ⟨rfl, rfl⟩
  · rw [if_neg (by rwa [List.length_replicate])]
    rw [if_neg hm]
    exact ⟨rfl, rfl⟩

/-- C1, counterexample: two handles of one collection cycle give the titles
`"1. Dune: Part Two"` and `"Dune: Part Two"`; both survive the filter of
lines 161-164, so the accumulator ends with *two* records titled
`"Dune: Part Two"`, falsifying the claimed invariant and the scenario. -/
theorem C1_counterexample :
    (innerLoop i0 [duneCycle]).all_movies.map Prod.fst = [duneTitle, duneTitle] ∧
    ¬ ((innerLoop i0 [duneCycle]).all_movies.map Prod.fst).Nodup := by decide

/-- C1, amended: a record kept by a cycle never duplicates a title already
in the accumulator when the cycle starts, so whenever the titles extracted
from each collected page are pairwise distinct, the whole accumulator stays
duplicate-free; only equal titles arising within one and the same cycle can
(and do) both enter. -/
theorem C1_dedup :
    (∀ (acc : List Movie) (page : List ExtractEnv) (r : Movie),
        r ∈ processContainers acc page → r.1 ∉ acc.map Prod.fst) ∧
    (∀ (script : List CycleInput) (st : IState),
        (st.all_movies.map Prod.fst).Nodup →
        (∀ c ∈ script, (pageTitles (scrape_page c.pageEnv)).Nodup) →
        ((innerLoop st script).all_movies.map Prod.fst).Nodup) := by
  constructor
  · exact fun acc page r h => (mem_processContainers h).2
  · intro script
    induction script with
    | nil =>
      intro st hst _
      exact hst
    | cons c rest ih =>
      intro st hst hsc
      rw [innerLoop]
      by_cases hlen : st.all_movies.length < MAX_MOVIES
      · rw [if_pos hlen]
        by_cases hpage : scrape_page c.pageEnv = []
        · rw [if_pos hpage]
          exact hst
        · rw [if_neg hpage]
          have h2 := nodup_runCycle c.saveOk hst (hsc c (by simp))
          by_cases hmax : MAX_MOVIES ≤
              (runCycle st c.saveOk (scrape_page c.pageEnv)).all_movies.length
          · rw [if_pos hmax]
            exact h2
          · rw [if_neg hmax]
            by_cases hpag : c.pagOk = true
            · rw [if_pos hpag]
              exact ih _ h2 (fun c' hc' => hsc c' (List.mem_cons_of_mem _ hc'))
            · rw [if_neg hpag]
              exact h2
      · rw [if_neg hlen]
        exact hst

/-- Witness for `C1_dedup` at concrete inputs. -/
theorem C1_witness :
    duneTitle ∉ ([] : List Movie).map Prod.fst ∧
    ((innerLoop i0 [⟨⟨true, [envDuneRanked]⟩, true, false⟩]).all_movies.map
      Prod.fst).Nodup :=
  ⟨C1_dedup.1 [] [envDuneRanked] (duneTitle, noDesc) (by decide),
   C1_dedup.2 [⟨⟨true, [envDuneRanked]⟩, true, false⟩] i0 (by decide) (by decide)⟩

/-- C2, counterexample: starting below the target, a single cycle whose
batch holds 4001 new records pushes the accumulator to 4001 — past
`MAX_MOVIES = 4000` — because line 167 extends by the whole batch before
the cap is consulted. -/
theorem C2_counterexample :
    MAX_MOVIES < (innerLoop i0 [cA 4001]).all_movies.length ∧
    (innerLoop i0 [cA 4001]).all_movies.length = 4001 := by
  have h := innerLoop_cA 4001 (by decide)
  have h2 := (runCycle_cA 4001 (by decide)).1
  rw [h, h2, List.length_replicate]
  exact ⟨by decide, rfl⟩

/-- C2, amended: a new extraction cycle is begun only while the accumulator
is strictly below `MAX_MOVIES`, and a cycle adds at most its batch size, so
when every collected batch has at most `B` handles the accumulator stays
below `MAX_MOVIES + B` after every cycle; the bound `MAX_MOVIES` itself can
be overshot by up to one batch. -/
theorem C2_target_cap :
    ∀ (script : List CycleInput) (st : IState) (B : Nat),
      (∀ c ∈ script, (scrape_page c.pageEnv).length ≤ B) →
      st.all_movies.length < MAX_MOVIES + B →
      (innerLoop st script).all_movies.length < MAX_MOVIES + B := by
  intro script
  induction script with
  | nil =>
    intro st B _ h
    exact h
  | cons c rest ih =>
    intro st B hB h
    rw [innerLoop]
    by_cases hlen : st.all_movies.length < MAX_MOVIES
    · rw [if_pos hlen]
      by_cases hpage : scrape_page c.pageEnv = []
      · rw [if_pos hpage]
        exact h
      · rw [if_neg hpage]
        have hb : (scrape_page c.pageEnv).length ≤ B := hB c (by simp)
        have h2 : (runCycle st c.saveOk (scrape_page c.pageEnv)).all_movies.length <
            MAX_MOVIES + B := by
          have hle := length_runCycle_le st c.saveOk (scrape_page c.pageEnv)
          omega
        by_cases hmax : MAX_MOVIES ≤
            (runCycle st c.saveOk (scrape_page c.pageEnv)).all_movies.length
        · rw [if_pos hmax]
          exact h2
        · rw [if_neg hmax]
          by_cases hpag : c.pagOk = true
          · rw [if_pos hpag]
            exact ih _ B (fun c' hc' => hB c' (List.mem_cons_of_mem _ hc')) h2
          · rw [if_neg hpag]
            exact h2
    · rw [if_neg hlen]
      exact h

/-- Witness for `C2_target_cap` at concrete inputs. -/
theorem C2_witness :
    (innerLoop i0 [cA 1]).all_movies.length < MAX_MOVIES + 1 :=
  C2_target_cap [cA 1] i0 1 (by decide) (by decide)

/-- `findAfter` finds nothing exactly when the separator occurs nowhere. -/
lemma findAfter_eq_none_iff (s : Str) :
    findAfter dotSpace s = none ↔ ¬ dotSpace <:+: s := by
  induction s with
  | nil =>
    simp only [findAfter, List.infix_nil, true_iff]
    decide
  | cons c rest ih =>
    rw [findAfter]
    have hpp : dotSpace.isPrefixOf (c :: rest) = true ↔ dotSpace <+: (c :: rest) :=
      List.isPrefixOf_iff_prefix
    by_cases hp : dotSpace.isPrefixOf (c :: rest) = true
    · rw [if_pos hp]
      constructor
      · intro h
        exact Option.noConfusion h
      · intro h
        exact absurd (List.infix_cons_iff.mpr (Or.inl (hpp.mp hp))) h
    · rw [if_neg hp]
      rw [ih]
      constructor
      · intro h hinf
        rcases List.infix_cons_iff.mp hinf with hpre | hinf'
        · exact hp (hpp.mpr hpre)
        · exact h hinf'
      · intro h hinf'
        exact h (List.infix_cons hinf')

/-- C3: when `check_session` reports a dead session and `recover_session`
fails, the `try:` body of `extract_movie_data` does raise the
`InvalidSessionIdException` of line 91 — but the function's own
`except Exception` handler (line 112) catches it and turns it into the
ordinary per-item failure `(None, None)`, so nothing session-fatal ever
reaches the collection loop from this path. -/
theorem C3_fatal_swallowed :
    extract_body deadEnv = Except.error PyExn.invalidSession ∧
    extract_movie_data deadEnv = (none, none) :=
  ⟨rfl, by decide⟩

/-- C4, counterexample: `"Mr. Smith Goes to Washington"` carries no
enumerated `"N. "` rank prefix and is already trimmed, yet line 95's
`split('. ', 1)[-1]` cuts at its first `". "` anyway, returning
`"Smith Goes to Washington"` instead of the intact text. -/
theorem C4_counterexample :
    extract_movie_data envMrSmith =
      (some "Smith Goes to Washington".data, some noDesc) ∧
    "Smith Goes to Washington".data ≠ "Mr. Smith Goes to Washington".data ∧
    pyStrip "Mr. Smith Goes to Washington".data =
      "Mr. Smith Goes to Washington".data := by decide

/-- C4, amended: the returned title is the trimmed text after the *first
occurrence of `". "` anywhere* (numeric rank or not); text in which `". "`
never occurs is returned intact apart from trimming; a missing title field
yields the failure pair; and the collection loop's filter (not the
extractor) guarantees no record with an empty title is ever appended. -/
theorem C4_title_rule :
    (∀ (e : ExtractEnv) (raw : Str), e.titleText = some raw →
        (e.sessionAlive = true ∨ recover_session e.recEnv = true) →
        extract_movie_data e = (some (titleClean raw), some (storylineOf e))) ∧
    (∀ e : ExtractEnv, e.titleText = none → extract_movie_data e = (none, none)) ∧
    (∀ raw : Str, ¬ dotSpace <:+: raw → titleClean raw = pyStrip raw) ∧
    (∀ (acc : List Movie) (page : List ExtractEnv) (r : Movie),
        r ∈ processContainers acc page → r.1 ≠ []) := by
  refine ⟨?_, ?_, ?_, ?_⟩
  · intro e raw ht hs
    rcases hs with hs | hr
    · simp [extract_movie_data, extract_body, hs, ht]
    · by_cases hs : e.sessionAlive = true <;>
        simp [extract_movie_data, extract_body, hs, hr, ht]
  · intro e ht
    by_cases hs : e.sessionAlive = true <;>
      by_cases hr : recover_session e.recEnv = true <;>
        simp [extract_movie_data, extract_body, hs, hr, ht]
  · intro raw hno
    unfold titleClean pySplitLast
    rw [(findAfter_eq_none_iff raw).mpr hno]
    rfl
  · exact fun acc page r h => (mem_processContainers h).1

/-- Witness for `C4_title_rule` at concrete inputs. -/
theorem C4_witness :
    extract_movie_data envDuneRanked =
      (some (titleClean "1. Dune: Part Two".data), some (storylineOf envDuneRanked)) ∧
    titleClean "Dune".data = pyStrip "Dune".data :=
  ⟨C4_title_rule.1 envDuneRanked "1. Dune: Part Two".data rfl (Or.inl rfl),
   C4_title_rule.2.2.1 "Dune".data (by decide)⟩

/-- C5: in the Tier-2-success scenario (refresh raises, the rebuilt session
works) `recover_session` returns `True`, but the brand-new session exists
only in the function's local `driver` name — the caller's handle is the
old, dead one, not the new one the claim promises.  Tier-1 success does
keep the same handle, and a double failure returns `False`. -/
theorem C5_handle_leak :
    recover_session_traced 0 1 ⟨false, true⟩ = ⟨true, 0, 1⟩ ∧
    (recover_session_traced 0 1 ⟨false, true⟩).callerHandle ≠
      (recover_session_traced 0 1 ⟨false, true⟩).localHandle ∧
    recover_session_traced 0 1 ⟨true, true⟩ = ⟨true, 0, 0⟩ ∧
    recover_session ⟨false, false⟩ = false := by decide

/-- C6, counterexample: from an empty accumulator, one cycle adding 251
records crosses the 250-record checkpoint mark (0 < 250 < 251) yet writes
no checkpoint at all, because line 171 fires only when the length lands on
an exact multiple of 250. -/
theorem C6_counterexample :
    i0.all_movies.length = 0 ∧
    (innerLoop i0 [cA 251]).all_movies.length = 251 ∧
    (innerLoop i0 [cA 251]).saves = [] := by
  have h := innerLoop_cA 251 (by decide)
  obtain ⟨h1, h2⟩ := runCycle_cA 251 (by decide)
  rw [h, h1, h2, List.length_replicate]
  refine ⟨rfl, rfl, ?_⟩
  rw [if_neg (by decide)]

/-- C6, amended: a checkpoint is written by a cycle exactly when the cycle
kept at least one new record *and* the resulting accumulator length is an
exact multiple of 250; batches that skip past a multiple, and cycles that
add nothing while sitting on a multiple, write none. -/
theorem C6_checkpoint_rule (st : IState) (ok : Bool) (page : List ExtractEnv) :
    (runCycle st ok page).saves =
      if processContainers st.all_movies page ≠ [] ∧
          (st.all_movies.length + (processContainers st.all_movies page).length) %
            250 = 0
      then st.saves ++ [st.all_movies ++ processContainers st.all_movies page]
      else st.saves := by
  unfold runCycle
  by_cases hne : processContainers st.all_movies page = []
  · rw [if_pos hne]
    rw [if_neg (by simp [hne])]
  · rw [if_neg hne]
    by_cases hm : (st.all_movies ++ processContainers st.all_movies page).length % 250 = 0
    · rw [if_pos hm]
      rw [if_pos ⟨hne, by rwa [List.length_append] at hm⟩]
    · rw [if_neg hm]
      rw [if_neg (by rw [List.length_append] at hm; exact fun h => hm h.2)]

/-- Unfolding the outer loop across one session-fatal attempt. -/
lemma outerLoop_fatalInGet (st : MState) (a : AttemptScript)
    (rest : List AttemptScript) (hatt : st.attempt < MAX_RETRIES)
    (hs : a.setup = SetupOutcome.fatalInGet) :
    outerLoop st (a :: rest) =
      outerLoop
        { st with
          attempt := st.attempt + 1
          driver := some st.nextH
          nextH := st.nextH + 1
          trace := st.trace ++ [Ev.newSession st.nextH, Ev.quit st.nextH, Ev.backoff] }
        rest := by
  rw [outerLoop, if_pos hatt, hs]

/-- Unfolding the outer loop across one successful attempt: the inner loop
runs starting from the carried-over accumulator, and line 192 breaks out. -/
lemma outerLoop_ok (st : MState) (a : AttemptScript) (rest : List AttemptScript)
    (hatt : st.attempt < MAX_RETRIES) (hs : a.setup = SetupOutcome.ok) :
    outerLoop st (a :: rest) =
      { st with
        all_movies := (innerLoop ⟨st.all_movies, st.file, []⟩ a.cycles).all_movies,
        file := (innerLoop ⟨st.all_movies, st.file, []⟩ a.cycles).file,
        driver := some st.nextH, nextH := st.nextH + 1,
        trace := st.trace ++ Ev.newSession st.nextH ::
          (innerLoop ⟨st.all_movies, st.file, []⟩ a.cycles).saves.map Ev.save } := by
  rw [outerLoop, if_pos hatt, hs]

/-- C7: a collector wait that times out yields the empty list rather than
an exception, and a run whose very first collection is empty ends with an
empty accumulator, an untouched attempt counter, and a final file holding
only the header row. -/
theorem C7_empty_collection :
    (∀ p : PageEnv, p.ok = false → scrape_page p = []) ∧
    (∀ (c : CycleInput) (rest : List CycleInput),
        scrape_page c.pageEnv = [] →
        (mainRun [⟨SetupOutcome.ok, c :: rest⟩] true).all_movies = [] ∧
        (mainRun [⟨SetupOutcome.ok, c :: rest⟩] true).file =
          [["Title".data, "Storyline".data]] ∧
        (mainRun [⟨SetupOutcome.ok, c :: rest⟩] true).attempt = 0) := by
  constructor
  · intro p hp
    simp [scrape_page, hp]
  · intro c rest hpage
    have hinner : innerLoop ⟨[], [], []⟩ (c :: rest) = ⟨[], [], []⟩ := by
      rw [innerLoop, if_pos (by decide : ([] : List Movie).length < MAX_MOVIES),
        if_pos hpage]
    have houter := outerLoop_ok ⟨0, [], [], none, 0, []⟩ ⟨SetupOutcome.ok, c :: rest⟩
      [] (by decide) rfl
    rw [hinner] at houter
    unfold mainRun
    rw [houter]
    exact ⟨rfl, rfl, rfl⟩

/-- Witness for `C7_empty_collection` at concrete inputs. -/
theorem C7_witness :
    scrape_page (⟨false, [envA]⟩ : PageEnv) = [] ∧
    (mainRun [⟨SetupOutcome.ok, [cTimeout]⟩] true).all_movies = [] ∧
    (mainRun [⟨SetupOutcome.ok, [cTimeout]⟩] true).file =
      [["Title".data, "Storyline".data]] := by
  have h1 := C7_empty_collection.1 ⟨false, [envA]⟩ rfl
  have h2 := C7_empty_collection.2 cTimeout [] h1
  exact ⟨h1, h2.1, h2.2.1⟩

/-- C8: a session-fatal fault in an attempt's preamble advances the attempt
counter by exactly one, quits the handle, sleeps the backoff, and leaves
the accumulator, file and everything else untouched for the next attempt;
when the next attempt opens, it does so on a brand-new handle (the id
counter has moved past the torn-down one) with the accumulator carried over
unchanged; and no other outcome — success, critical fault, or an exhausted
budget — ever changes the attempt counter. -/
theorem C8_retry_envelope :
    (∀ (st : MState) (a : AttemptScript) (rest : List AttemptScript),
        st.attempt < MAX_RETRIES → a.setup = SetupOutcome.fatalInGet →
        outerLoop st (a :: rest) =
          outerLoop
            { st with
              attempt := st.attempt + 1
              driver := some st.nextH
              nextH := st.nextH + 1
              trace := st.trace ++
                [Ev.newSession st.nextH, Ev.quit st.nextH, Ev.backoff] }
            rest) ∧
    (∀ (st : MState) (a b : AttemptScript) (rest : List AttemptScript),
        st.attempt + 1 < MAX_RETRIES → a.setup = SetupOutcome.fatalInGet →
        b.setup = SetupOutcome.ok →
        (outerLoop st (a :: b :: rest)).all_movies =
          (innerLoop ⟨st.all_movies, st.file, []⟩ b.cycles).all_movies ∧
        (outerLoop st (a :: b :: rest)).trace =
          st.trace ++ Ev.newSession st.nextH :: Ev.quit st.nextH :: Ev.backoff ::
            Ev.newSession (st.nextH + 1) ::
            (innerLoop ⟨st.all_movies, st.file, []⟩ b.cycles).saves.map Ev.save) ∧
    (∀ (st : MState) (a : AttemptScript) (rest : List AttemptScript),
        a.setup = SetupOutcome.ok ∨ a.setup = SetupOutcome.critical →
        (outerLoop st (a :: rest)).attempt = st.attempt) ∧
    (∀ st : MState, (outerLoop st []).attempt = st.attempt) := by
  refine ⟨?_, ?_, ?_, ?_⟩
  · intro st a rest hatt hs
    exact outerLoop_fatalInGet st a rest hatt hs
  · intro st a b rest hatt ha hb
    rw [outerLoop_fatalInGet st a _ (by omega) ha]
    rw [outerLoop_ok _ b rest (by simpa using hatt) hb]
    refine ⟨rfl, ?_⟩
    simp [List.append_assoc]
  · intro st a rest h
    by_cases hatt : st.attempt < MAX_RETRIES
    · rcases h with h | h <;> rw [outerLoop, if_pos hatt, h]
    · rw [outerLoop, if_neg hatt]
  · intro st
    rw [outerLoop]

/-- Witness for `C8_retry_envelope` at concrete inputs. -/
theorem C8_witness :
    outerLoop ⟨0, [], [], none, 0, []⟩ [⟨SetupOutcome.fatalInGet, []⟩] =
      outerLoop ⟨1, [], [], some 0, 1, [Ev.newSession 0, Ev.quit 0, Ev.backoff]⟩ [] :=
  C8_retry_envelope.1 ⟨0, [], [], none, 0, []⟩ ⟨SetupOutcome.fatalInGet, []⟩ []
    (by decide) rfl

/-- C9: whatever the outer loop did, `mainRun` then invokes `save_progress`
on the full final accumulator (line 205) — the final-save event follows the
whole loop trace on every terminating path — and a failing checkpoint write
returns normally, leaving the previous file contents in place instead of
raising. -/
theorem C9_final_save :
    (∀ (movies : List Movie) (file : List (List Str)),
        save_progress false movies file = file) ∧
    (∀ (script : List AttemptScript) (finalOk : Bool),
        ∃ t, (mainRun script finalOk).trace =
          (outerLoop ⟨0, [], [], none, 0, []⟩ script).trace ++
            Ev.save (mainRun script finalOk).all_movies :: t) := by
  constructor
  · intro movies file
    rfl
  · intro script finalOk
    exact ⟨(match (outerLoop ⟨0, [], [], none, 0, []⟩ script).driver with
            | some h => [Ev.quit h]
            | none => []), rfl⟩

/-- C10: `extract_movie_data` returns either the failure pair
`(None, None)` or a full pair whose storyline is the fallback chain's
result, a non-empty string; it never returns a pair with exactly one `None`
component. -/
theorem C10_result_shape (e : ExtractEnv) :
    extract_movie_data e = (none, none) ∨
    ∃ t, extract_movie_data e = (some t, some (storylineOf e)) ∧
      storylineOf e ≠ [] := by
  rcases extract_eq_cases e with h | ⟨raw, _, h⟩
  · exact Or.inl h
  · exact Or.inr ⟨titleClean raw, h, storylineOf_ne_nil e⟩
